import Mathlib

/-
Verification of the vedro-debug-prompt prompt builder.

This file gives a shallow embedding of `vedro_debug_prompt/_prompt_builder.py`
(class `PromptBuilder`) and of the small amount of glue in
`vedro_debug_prompt/_debug_prompt.py` that the verified claims touch.

Modelling conventions:
* Python strings are Lean `String`s; the character-level helpers below
  re-implement the Python string primitives the code uses
  (`str.replace`, `str.splitlines`, `str.strip`, `str.rstrip`,
  `str.split`, `textwrap.dedent`, `str.format`) so that every proof can
  reason about them directly.
* `pathlib.Path` is modelled by `PyPath` (an absolute-flag plus the list
  of path components); `Path.relative_to` raises `ValueError` when the
  base is not a prefix, modelled by an `Option` result.
* External collaborators (the vedro `TracebackFilter`, the stdlib
  `traceback.format_tb` per-frame rendering, Python `repr`, and the
  ambient interpreter/platform identification used by `_get_runtime`)
  are modelled as data carried by the input structures: each traceback
  frame carries the flag the filter tests and the text `format_tb`
  renders for it, scope values are carried as their `repr` strings, and
  a `SysEnv` record carries `sys.version`, `vedro.__version__` and
  `platform.platform()`.
* `elapsed` (a float formatted with `:.2f`) is modelled in centiseconds.
* Failure propagation (`assert`, `Path.relative_to`) is modelled with
  `Except BuildError`.
-/

set_option maxRecDepth 40000

/-- Characters `textwrap.dedent` treats as indentation (space and tab). -/
def isIndentChar (c : Char) : Bool := c = ' ' || c = '\t'

/-- ASCII whitespace stripped by Python `str.strip()` / `str.rstrip()`. -/
def isPyWs (c : Char) : Bool :=
  c = ' ' || c = '\t' || c = '\n' || c = '\r' || c = '\x0b' || c = '\x0c'

/-- Line-boundary characters recognised by Python `str.splitlines`. -/
def isLineBreakChar (c : Char) : Bool :=
  c = '\n' || c = '\r' || c = '\x0b' || c = '\x0c' || c = '\x1c' ||
  c = '\x1d' || c = '\x1e' || c = '\x85' || c = '\u2028' || c = '\u2029'

/-- Boolean list-prefix test (used for Python `str.startswith`, substring
matching and `Path.relative_to`). -/
def isPrefixL {α : Type} [DecidableEq α] : List α → List α → Bool
  | [], _ => true
  | _ :: _, [] => false
  | a :: as, b :: bs => if a = b then isPrefixL as bs else false

/-- Number of positions of `l` at which the pattern `p` occurs as a
substring (occurrences may overlap). -/
def countSub (p : List Char) : List Char → Nat
  | [] => 0
  | c :: rest => (if isPrefixL p (c :: rest) then 1 else 0) + countSub p rest

/-- Split a character list at every `'\n'`; always returns one more
segment than there are newlines. -/
def splitNl : List Char → List (List Char)
  | [] => [[]]
  | c :: rest =>
    let r := splitNl rest
    if c = '\n' then [] :: r else (c :: r.headD []) :: r.tail

/-- Join segments with a single `'\n'` between consecutive segments
(inverse of `splitNl`). -/
def joinNl : List (List Char) → List Char
  | [] => []
  | [l] => l
  | l :: rest => l ++ '\n' :: joinNl rest

/-- Longest common prefix of two character lists. -/
def lcp : List Char → List Char → List Char
  | a :: as, b :: bs => if a = b then a :: lcp as bs else []
  | _, _ => []

/-- Python `str.strip()` on a character list. -/
def pyStripData (l : List Char) : List Char :=
  ((l.dropWhile isPyWs).reverse.dropWhile isPyWs).reverse

/-- Python `str.strip()`. -/
def strStrip (s : String) : String := ⟨pyStripData s.data⟩

/-- Python `str.rstrip()` on a character list. -/
def pyRstripData (l : List Char) : List Char :=
  (l.reverse.dropWhile isPyWs).reverse

/-- Python `str.rstrip()`. -/
def pyRstrip (s : String) : String := ⟨pyRstripData s.data⟩

/-- Worker for `splitLinesKeep`: accumulates the current line (reversed)
and closes it at each line boundary, keeping the boundary characters. -/
def splitLinesKeepAux (acc : List Char) : List Char → List (List Char)
  | [] => if acc = [] then [] else [acc.reverse]
  | '\r' :: '\n' :: rest => (acc.reverse ++ ['\r', '\n']) :: splitLinesKeepAux [] rest
  | c :: rest =>
    if isLineBreakChar c then (acc.reverse ++ [c]) :: splitLinesKeepAux [] rest
    else splitLinesKeepAux (c :: acc) rest

/-- Python `str.splitlines(keepends=True)`. -/
def splitLinesKeep (s : String) : List String :=
  (splitLinesKeepAux [] s.data).map (fun l => ⟨l⟩)

/-- Worker for `splitWs`: splits at runs of whitespace, dropping empty
tokens, as Python `str.split()` with no argument does. -/
def splitWsAux (acc : List Char) : List Char → List (List Char)
  | [] => if acc = [] then [] else [acc.reverse]
  | c :: rest =>
    if isPyWs c then
      if acc = [] then splitWsAux [] rest else acc.reverse :: splitWsAux [] rest
    else splitWsAux (c :: acc) rest

/-- Python `str.split()` (split on whitespace runs, no empty tokens). -/
def splitWs (s : String) : List String :=
  (splitWsAux [] s.data).map (fun l => ⟨l⟩)

/-- Python `"".join(...)`. -/
def strJoin (l : List String) : String := l.foldl (fun a b => a ++ b) ""

/-- Python `sep.join(...)`. -/
def strIntercalate (sep : String) : List String → String
  | [] => ""
  | [s] => s
  | s :: rest => s ++ sep ++ strIntercalate sep rest

/-- `textwrap.dedent`: whitespace-only lines are normalised to empty,
then the longest common leading run of spaces/tabs of the remaining
lines is removed from every line that starts with it. -/
def dedent (text : String) : String :=
  let lines := splitNl text.data
  let norm := lines.map (fun l => if l ≠ [] && l.all isIndentChar then [] else l)
  let indents := norm.filterMap
    (fun l => if l = [] then none else some (l.takeWhile isIndentChar))
  let margin := match indents with
    | [] => []
    | i :: rest => rest.foldl lcp i
  let stripped := norm.map
    (fun l => if isPrefixL margin l then l.drop margin.length else l)
  ⟨joinNl stripped⟩

/-- Python `f"{n:4d}"`: decimal rendering right-aligned to width 4. -/
def padInt4 (n : Int) : String :=
  let s := toString n
  ⟨List.replicate (4 - s.length) ' '⟩ ++ s

/-- Worker for `pyReplace` with a non-empty pattern: left-to-right,
non-overlapping replacement, with enough fuel to scan the whole list
(each step consumes at least one character). -/
def replaceGo (p r : List Char) : Nat → List Char → List Char
  | _, [] => []
  | 0, l => l
  | fuel + 1, c :: rest =>
    if isPrefixL p (c :: rest) then
      r ++ replaceGo p r fuel (rest.drop (p.length - 1))
    else
      c :: replaceGo p r fuel rest

/-- Python `s.replace(pat, rep)` (all occurrences, scanned left to
right; an empty pattern inserts `rep` around every character). -/
def pyReplace (s pat rep : String) : String :=
  match pat.data with
  | [] => ⟨rep.data ++ s.data.flatMap (fun c => c :: rep.data)⟩
  | c :: cs => ⟨replaceGo (c :: cs) rep.data s.data.length s.data⟩

/-- `os.linesep`, modelled for the POSIX platforms this plugin targets. -/
def linesep : String := "\n"

/-- A `pathlib.Path`: absolute flag plus components. -/
structure PyPath where
  isAbs : Bool
  parts : List String
deriving DecidableEq

/-- `str(path)`: components joined with `/`; an empty relative path
renders as `.`, matching `pathlib`. -/
def pathStr (p : PyPath) : String :=
  if p.parts = [] then (if p.isAbs then "/" else ".")
  else (if p.isAbs then "/" else "") ++ strIntercalate "/" p.parts

/-- `Path.relative_to`: strips `base` from the front of `p`; `none`
models the `ValueError` raised when `base` is not a prefix of `p`. -/
def relativeTo (p base : PyPath) : Option PyPath :=
  if p.isAbs = base.isAbs && isPrefixL base.parts p.parts then
    some ⟨false, p.parts.drop base.parts.length⟩
  else none

/-- One traceback frame. `isVedroInternal` is the verdict of the
framework-supplied `TracebackFilter([vedro])` on this frame, and
`formatted` is the text `traceback.format_tb` renders for it; both
collaborators are external to this code base. -/
structure PyFrame where
  isVedroInternal : Bool
  formatted : String
deriving DecidableEq

/-- The captured exception value. `message` is `str(exc_value)`;
`assertLeft`/`assertRight` carry the `repr` of the structured
`__vedro_assert_left__`/`__vedro_assert_right__` operands when present
(`Nil` is modelled by `none`); `assertOperator` is the comparison
operator string. -/
structure PyExcValue where
  className : String
  message : String
  isAssertionError : Bool
  assertLeft : Option String
  assertRight : Option String
  assertOperator : Option String
deriving DecidableEq

/-- `vedro.core.ExcInfo`: exception value plus traceback. -/
structure ExcInfo where
  value : PyExcValue
  traceback : List PyFrame
deriving DecidableEq

/-- `vedro.core.VirtualScenario`, as far as the builder reads it.
`origSource` models a successful `inspect.getsourcelines` on
`_orig_scenario` (lines with their line endings, plus starting line
number); `none` models any introspection failure. `fileText` models a
successful `path.read_text()`; `none` models a failed read. -/
structure VirtualScenario where
  subject : String
  path : PyPath
  origSource : Option (List String × Nat)
  fileText : Option String
deriving DecidableEq

/-- One `vedro.core.StepResult`. `statusValue` is
`str(step_result.status.value)`; `elapsedCentis` carries the elapsed
seconds in centiseconds (the code prints the float with `:.2f`);
`excInfo` is `step_result.exc_info` (`Nil` modelled by `none`). -/
structure StepResult where
  stepName : String
  statusValue : String
  elapsedCentis : Nat
  excInfo : Option ExcInfo
deriving DecidableEq

/-- `vedro.core.ScenarioResult`: the scenario, its ordered step results
and the captured scope. Scope values are carried as their Python `repr`
strings, since the code only ever renders them with `!r`. -/
structure ScenarioResult where
  scenario : VirtualScenario
  stepResults : List StepResult
  scope : List (String × String)
deriving DecidableEq

/-- Ambient interpreter/platform data read by `_get_runtime`:
`sys.version`, `vedro.__version__` and `platform.platform()`. -/
structure SysEnv where
  sysVersion : String
  vedroVersion : String
  osPlatform : String
deriving DecidableEq

/-- The two ways `PromptBuilder.build` can raise: the
`assert isinstance(exc_info, ExcInfo)` contract check, and the
`ValueError` from `Path.relative_to`. -/
inductive BuildError where
  | assertionError
  | valueError
deriving DecidableEq

/-- `PromptBuilder.__init__` configuration (`include_variables` defaults
to `False`, `tb_limit` to `10`). -/
structure PromptBuilder where
  includeVariables : Bool
  tbLimit : Int
deriving DecidableEq

/-- The default-configured builder (`PromptBuilder()`), as instantiated
by the `DebugPrompt` plugin config. -/
def defaultPromptBuilder : PromptBuilder := ⟨false, 10⟩

/-- Raw template literal of `_get_prompt_template`, before
`dedent`/`strip`. -/
def promptTemplateRaw : String :=
  "\n            ## SYSTEM\n            {system_prompt}\n\n            ## SCENARIO\n            - **Name:** {scenario_name}\n            - **Location:** {scenario_loc}\n            - **Runtime:** {runtime}\n\n            ## STEPS\n            {scenario_steps}\n\n            ## SOURCE\n            ```python\n            {scenario_source}\n            ```\n\n            ## FAILURE\n            {error_message}\n\n            ## TRACEBACK\n            ```python\n            {error_tb}\n            ```\n\n            ## VARIABLES\n            {variables}\n        "

/-- `PromptBuilder._get_prompt_template()`. -/
def promptTemplate : String := strStrip (dedent promptTemplateRaw)

/-- Raw literal of `_get_system_prompt`, before `dedent`/`strip`. -/
def systemPromptRaw : String :=
  "\n            You are a senior Python engineer helping me debug a failed automated test.\n            – Analyse the information below.\n            – Identify the most likely root cause.\n            – Propose the **smallest** code or test change that would make the test pass.\n            – Answer in markdown with the sections:\n              1. **Root cause**\n              2. **Suggested fix (code)** — show only the diff or patched snippet\n              3. **Why this works**\n        "

/-- `PromptBuilder._get_system_prompt()`. -/
def getSystemPrompt : String := strStrip (dedent systemPromptRaw)

/-- A parsed piece of the format template: literal text or a
replacement field. -/
inductive TSeg where
  | lit (cs : List Char)
  | fld (name : List Char)
deriving DecidableEq

/-- Worker for `parseTemplate`: splits a format string into literal and
field segments (the template uses no `\x7b\x7b` escapes or format
specs, so plain brace scanning is exact here). -/
def parseTAux : Bool → List Char → List Char → List TSeg
  | false, acc, [] => if acc = [] then [] else [TSeg.lit acc.reverse]
  | true, acc, [] => [TSeg.fld acc.reverse]
  | false, acc, c :: rest =>
    if c = '\x7b' then TSeg.lit acc.reverse :: parseTAux true [] rest
    else parseTAux false (c :: acc) rest
  | true, acc, c :: rest =>
    if c = '\x7d' then TSeg.fld acc.reverse :: parseTAux false [] rest
    else parseTAux true (c :: acc) rest

/-- Parse a `str.format` template into segments. -/
def parseTemplate (tpl : String) : List TSeg :=
  parseTAux false [] tpl.data

/-- Keyword-argument lookup for `str.format` (every field name used by
the template is supplied by `build`, so the `[]` default is never
reached there). -/
def lookupFld : List (List Char × List Char) → List Char → List Char
  | [], _ => []
  | kv :: rest, n => if kv.1 = n then kv.2 else lookupFld rest n

/-- Substitute field values into parsed template segments. -/
def renderSegs : List TSeg → List (List Char × List Char) → List Char
  | [], _ => []
  | [TSeg.lit cs], _ => cs
  | [TSeg.fld n], flds => lookupFld flds n
  | TSeg.lit cs :: rest, flds => cs ++ renderSegs rest flds
  | TSeg.fld n :: rest, flds => lookupFld flds n ++ renderSegs rest flds

/-- Python `template.format(**fields)` for this template. -/
def renderTemplate (tpl : String) (flds : List (List Char × List Char)) : String :=
  ⟨renderSegs (parseTemplate tpl) flds⟩

/-- `PromptBuilder._get_error`: first step's exception info, scanning in
execution order. -/
def findError : List StepResult → Option ExcInfo
  | [] => none
  | s :: rest =>
    match s.excInfo with
    | some e => some e
    | none => findError rest

/-- `PromptBuilder._get_error` on a scenario result. -/
def getError (sr : ScenarioResult) : Option ExcInfo :=
  findError sr.stepResults

/-- `PromptBuilder._get_scenario_name`. -/
def getScenarioName (sc : VirtualScenario) : String := sc.subject

/-- Python `f"{elapsed:.2f}"` for a duration held in centiseconds. -/
def fmtElapsed2 (centis : Nat) : String :=
  toString (centis / 100) ++ "." ++
    (if centis % 100 < 10 then "0" else "") ++ toString (centis % 100)

/-- `PromptBuilder._get_scenario_steps`. -/
def getScenarioSteps (sr : ScenarioResult) : String :=
  let lines := sr.stepResults.map
    (fun s => "[" ++ s.statusValue ++ "] " ++ s.stepName ++ " (" ++ fmtElapsed2 s.elapsedCentis ++ "s)")
  strIntercalate linesep (lines.map (fun line => "- " ++ line))

/-- `PromptBuilder._number_lines`. -/
def numberLines (lines : List String) (start : Int) : String :=
  strJoin (lines.enum.map (fun p => padInt4 (start + p.1) ++ ": " ++ p.2))

/-- `PromptBuilder._get_scenario_source`: primary introspection path,
then whole-file fallback, then the `("", -1, -1)` sentinel. -/
def getScenarioSource (sc : VirtualScenario) : String × Int × Int :=
  match sc.origSource with
  | some (lines, start) =>
    let dedented := splitLinesKeep (dedent (strJoin lines))
    (numberLines dedented start, start, (start : Int) + dedented.length - 1)
  | none =>
    match sc.fileText with
    | some raw =>
      let lines := splitLinesKeep raw
      (numberLines lines 1, 1, (lines.length : Int))
    | none => ("", -1, -1)

/-- `PromptBuilder._cleanup_line`. -/
def cleanupLine (line : String) (projectDir : PyPath) : String :=
  pyReplace line (pathStr projectDir) "."

/-- `PromptBuilder._format_exception_message`. -/
def formatExceptionMessage (v : PyExcValue) : String :=
  if !v.isAssertionError then v.message
  else
    match v.assertLeft with
    | none => v.message
    | some left =>
      match v.assertRight, v.assertOperator with
      | some right, some op =>
        v.className ++ ": assert " ++ left ++ " " ++ op ++ " " ++ right
      | _, _ => v.className ++ ": assert " ++ left

/-- `PromptBuilder._get_error_message`. -/
def getErrorMessage (exc : ExcInfo) (projectDir : PyPath) : String :=
  cleanupLine (formatExceptionMessage exc.value) projectDir

/-- `TracebackFilter([vedro]).filter_tb`: drops frames from vedro
internals (the filter verdict is carried on each frame). -/
def filterTb (tb : List PyFrame) : List PyFrame :=
  tb.filter (fun f => !f.isVedroInternal)

/-- `traceback.format_tb(tb, limit=limit)`: the first `limit` frames
when `limit` is non-negative, the last `|limit|` frames otherwise. -/
def formatTbFrames (frames : List PyFrame) (limit : Int) : List String :=
  if 0 ≤ limit then (frames.take limit.toNat).map PyFrame.formatted
  else (frames.drop (frames.length - limit.natAbs)).map PyFrame.formatted

/-- `PromptBuilder._get_error_tb`. -/
def getErrorTb (b : PromptBuilder) (exc : ExcInfo) (projectDir : PyPath) : String :=
  let frames := filterTb exc.traceback
  let tbLines := formatTbFrames frames b.tbLimit
  pyRstrip (strJoin (tbLines.map (fun line => cleanupLine line projectDir)))

/-- `PromptBuilder._get_variables`. -/
def getVariables (sr : ScenarioResult) : String :=
  let vs := (sr.scope.filter
    (fun kv => !isPrefixL ['_'] kv.1.data)).map (fun kv => kv.1 ++ " = " ++ kv.2)
  if vs = [] then "No variables found" else strIntercalate linesep vs

/-- The `variables=... if self._include_variables else "—"` argument of
the template call in `build`. -/
def variablesField (b : PromptBuilder) (sr : ScenarioResult) : String :=
  if b.includeVariables then getVariables sr else "—"

/-- `PromptBuilder._get_runtime` (`sys.version` is a non-empty constant
of the interpreter, so the `headD` default is never reached). -/
def getRuntime (env : SysEnv) : String :=
  let pythonVersion := (splitWs env.sysVersion).headD ""
  "Python " ++ pythonVersion ++ " · Vedro " ++ env.vedroVersion ++ " · " ++ env.osPlatform

/-- The keyword arguments passed to `prompt_template.format(...)` by
`build`, in source order. -/
def promptFields (b : PromptBuilder) (sr : ScenarioResult) (excInfo : ExcInfo)
    (projectDir : PyPath) (scenarioLoc : String) (env : SysEnv) :
    List (List Char × List Char) :=
  [("system_prompt".data, getSystemPrompt.data),
   ("scenario_name".data, (getScenarioName sr.scenario).data),
   ("scenario_loc".data, scenarioLoc.data),
   ("runtime".data, (getRuntime env).data),
   ("scenario_steps".data, (getScenarioSteps sr).data),
   ("scenario_source".data, (getScenarioSource sr.scenario).1.data),
   ("error_message".data, (getErrorMessage excInfo projectDir).data),
   ("error_tb".data, (getErrorTb b excInfo projectDir).data),
   ("variables".data, (variablesField b sr).data)]

/-- `PromptBuilder.build`. Returns `Except.error .assertionError` when
no step carries exception info (the `assert isinstance(exc_info,
ExcInfo)` contract check) and `Except.error .valueError` when the
scenario path is not under the project root (`Path.relative_to`). -/
def PromptBuilder.build (b : PromptBuilder) (scenarioResult : ScenarioResult)
    (projectDir : PyPath) (env : SysEnv) : Except BuildError String :=
  match getError scenarioResult with
  | none => Except.error BuildError.assertionError
  | some excInfo =>
    let src := getScenarioSource scenarioResult.scenario
    match relativeTo scenarioResult.scenario.path projectDir with
    | none => Except.error BuildError.valueError
    | some scenarioPath =>
      let scenarioLoc := pathStr scenarioPath ++ ":" ++ toString src.2.1
      Except.ok (renderTemplate promptTemplate
        (promptFields b scenarioResult excInfo projectDir scenarioLoc env))

/-! Helper lemmas about error extraction. -/

theorem findError_none (steps : List StepResult)
    (h : ∀ s ∈ steps, s.excInfo = none) : findError steps = none := by
  induction steps with
  | nil => rfl
  | cons s rest ih =>
    have hs := h s (by simp)
    simp only [findError, hs]
    exact ih (fun x hx => h x (by simp [hx]))

theorem findError_first (pre : List StepResult) (s : StepResult)
    (post : List StepResult) (e : ExcInfo)
    (hpre : ∀ x ∈ pre, x.excInfo = none) (hs : s.excInfo = some e) :
    findError (pre ++ s :: post) = some e := by
  induction pre with
  | nil => simp [findError, hs]
  | cons p rest ih =>
    have hp := hpre p (by simp)
    simp only [List.cons_append, findError, hp]
    exact ih (fun x hx => hpre x (by simp [hx]))

/-! Shared concrete fixtures used by the witness theorems. -/

def excW : ExcInfo := ⟨⟨"ValueError", "boom", false, none, none, none⟩, []⟩

def stepPass : StepResult := ⟨"Enter credentials", "PASSED", 12, none⟩

def stepFail : StepResult := ⟨"Submit", "FAILED", 5, some excW⟩

def scW : VirtualScenario := ⟨"Login", ⟨true, ["r", "tests", "login.py"]⟩, none, none⟩

def pdW : PyPath := ⟨true, ["r"]⟩

def envW : SysEnv := ⟨"3.10.12 (main)", "1.9.9", "Linux-x86_64"⟩

/-- C8: error extraction scans the step results in execution order and
returns the exception info of the first step that carries one. -/
theorem getError_first_step (sr : ScenarioResult) (pre : List StepResult)
    (s : StepResult) (post : List StepResult) (e : ExcInfo)
    (hsplit : sr.stepResults = pre ++ s :: post)
    (hpre : ∀ x ∈ pre, x.excInfo = none) (hs : s.excInfo = some e) :
    getError sr = some e := by
  rw [getError, hsplit]
  exact findError_first pre s post e hpre hs

/-- Witness for C8 at a concrete scenario result: a passed step followed
by two failed steps; the first failure's exception info is returned. -/
theorem getError_first_step_witness :
    getError ⟨scW, [stepPass, stepFail, ⟨"Later", "FAILED", 7, some excW⟩], []⟩ = some excW :=
  getError_first_step _ [stepPass] stepFail [⟨"Later", "FAILED", 7, some excW⟩] excW
    rfl (by decide) rfl

/-- C2: building a prompt for a scenario result in which no step result
carries exception info fails with the assertion contract error instead
of returning a document. -/
theorem build_without_error_raises (b : PromptBuilder) (sr : ScenarioResult)
    (pd : PyPath) (env : SysEnv) (h : ∀ s ∈ sr.stepResults, s.excInfo = none) :
    b.build sr pd env = Except.error BuildError.assertionError := by
  have h0 : getError sr = none := findError_none sr.stepResults h
  simp [PromptBuilder.build, h0]

/-- Witness for C2: a scenario result with one passed (error-free) step. -/
theorem build_without_error_raises_witness :
    defaultPromptBuilder.build ⟨scW, [stepPass], []⟩ pdW envW =
      Except.error BuildError.assertionError :=
  build_without_error_raises defaultPromptBuilder ⟨scW, [stepPass], []⟩ pdW envW (by decide)

/-- C10: when the scenario result carries a captured error but the
scenario path is not under the project root, `build` raises the
`relative_to` error instead of returning a document. -/
theorem build_outside_root_raises (b : PromptBuilder) (sr : ScenarioResult)
    (pd : PyPath) (env : SysEnv) (e : ExcInfo)
    (he : getError sr = some e)
    (hrel : relativeTo sr.scenario.path pd = none) :
    b.build sr pd env = Except.error BuildError.valueError := by
  simp [PromptBuilder.build, he, hrel]

/-- Witness for C10: a failed scenario whose file lives outside the
project root. -/
theorem build_outside_root_raises_witness :
    defaultPromptBuilder.build
      ⟨⟨"Login", ⟨true, ["q", "login.py"]⟩, none, none⟩, [stepFail], []⟩ pdW envW =
      Except.error BuildError.valueError :=
  build_outside_root_raises defaultPromptBuilder
    ⟨⟨"Login", ⟨true, ["q", "login.py"]⟩, none, none⟩, [stepFail], []⟩ pdW envW excW
    rfl (by decide)

/-- C5: source recovery is an ordered fallback chain: with introspection
unavailable but the file readable, the source is the whole file numbered
from line 1 with no dedent; with both unavailable, the sentinel
`("", -1, -1)` is returned (the function is total, so no exception
escapes source recovery). -/
theorem source_recovery_fallback (sc1 : VirtualScenario) (raw : String)
    (sc2 : VirtualScenario)
    (h1a : sc1.origSource = none) (h1b : sc1.fileText = some raw)
    (h2a : sc2.origSource = none) (h2b : sc2.fileText = none) :
    getScenarioSource sc1 =
      (numberLines (splitLinesKeep raw) 1, 1, ((splitLinesKeep raw).length : Int)) ∧
    getScenarioSource sc2 = ("", -1, -1) := by
  constructor
  · simp [getScenarioSource, h1a, h1b]
  · simp [getScenarioSource, h2a, h2b]

/-- Witness for C5 at concrete scenarios: one with a readable two-line
file, one with nothing readable. -/
theorem source_recovery_fallback_witness :
    getScenarioSource ⟨"Login", ⟨true, ["r", "login.py"]⟩, none, some "a = 1\nb = 2\n"⟩ =
      (numberLines (splitLinesKeep "a = 1\nb = 2\n") 1, 1,
        ((splitLinesKeep "a = 1\nb = 2\n").length : Int)) ∧
    getScenarioSource scW = ("", -1, -1) :=
  source_recovery_fallback
    ⟨"Login", ⟨true, ["r", "login.py"]⟩, none, some "a = 1\nb = 2\n"⟩ "a = 1\nb = 2\n"
    scW rfl rfl rfl rfl

/-- C6: failure message formatting: an assertion failure with a
structured left operand and no operator/right renders as
`ClassName: assert <left repr>`; with operator and right present it
renders the full comparison; a non-assertion exception, or an assertion
without a structured left operand, renders `str(exc)` verbatim. -/
theorem format_exception_message_cases
    (v1 : PyExcValue) (left1 : String)
    (v2 : PyExcValue) (left2 right2 op2 : String)
    (v3 : PyExcValue) (v4 : PyExcValue)
    (h11 : v1.isAssertionError = true) (h12 : v1.assertLeft = some left1)
    (h13 : v1.assertRight = none) (h14 : v1.assertOperator = none)
    (h21 : v2.isAssertionError = true) (h22 : v2.assertLeft = some left2)
    (h23 : v2.assertRight = some right2) (h24 : v2.assertOperator = some op2)
    (h31 : v3.isAssertionError = false)
    (h41 : v4.isAssertionError = true) (h42 : v4.assertLeft = none) :
    formatExceptionMessage v1 = v1.className ++ ": assert " ++ left1 ∧
    formatExceptionMessage v2 =
      v2.className ++ ": assert " ++ left2 ++ " " ++ op2 ++ " " ++ right2 ∧
    formatExceptionMessage v3 = v3.message ∧
    formatExceptionMessage v4 = v4.message := by
  refine ⟨?_, ?_, ?_, ?_⟩
  · simp [formatExceptionMessage, h11, h12, h13, h14]
  · simp [formatExceptionMessage, h21, h22, h23, h24]
  · simp [formatExceptionMessage, h31]
  · simp [formatExceptionMessage, h41, h42]

/-- Witness for C6 at the spec's own examples: `assert 1` (left only),
`assert 1 == 2` (full comparison), a plain `ValueError("boom")`, and an
assertion without structured operands. -/
theorem format_exception_message_cases_witness :
    formatExceptionMessage ⟨"AssertionError", "", true, some "1", none, none⟩ =
      "AssertionError" ++ ": assert " ++ "1" ∧
    formatExceptionMessage ⟨"AssertionError", "", true, some "1", some "2", some "=="⟩ =
      "AssertionError" ++ ": assert " ++ "1" ++ " " ++ "==" ++ " " ++ "2" ∧
    formatExceptionMessage ⟨"ValueError", "boom", false, none, none, none⟩ = "boom" ∧
    formatExceptionMessage ⟨"AssertionError", "plain msg", true, none, none, none⟩ =
      "plain msg" :=
  format_exception_message_cases
    ⟨"AssertionError", "", true, some "1", none, none⟩ "1"
    ⟨"AssertionError", "", true, some "1", some "2", some "=="⟩ "1" "2" "=="
    ⟨"ValueError", "boom", false, none, none, none⟩
    ⟨"AssertionError", "plain msg", true, none, none, none⟩
    rfl rfl rfl rfl rfl rfl rfl rfl rfl rfl rfl

/-- C9: variables rendering: non-underscore scope entries render one
per line as `name = <repr>` in insertion order (concretely, the scope
`{"_hidden": 1, "x": 2, "y": "s"}` renders exactly `x = 2` and
`y = 's'`); a scope with every key underscored renders
`No variables found`; with variable inclusion disabled the section body
is `—` regardless of the scope. -/
theorem variables_rendering (sc : VirtualScenario) (steps : List StepResult)
    (sr2 : ScenarioResult) (b3 : PromptBuilder) (sr3 : ScenarioResult)
    (h2 : ∀ kv ∈ sr2.scope, isPrefixL ['_'] kv.1.data = true)
    (h3 : b3.includeVariables = false) :
    getVariables ⟨sc, steps, [("_hidden", "1"), ("x", "2"), ("y", "'s'")]⟩ =
      "x = 2" ++ linesep ++ "y = 's'" ∧
    getVariables sr2 = "No variables found" ∧
    variablesField b3 sr3 = "—" := by
  refine ⟨rfl, ?_, ?_⟩
  · have hnil : sr2.scope.filter (fun kv => !isPrefixL ['_'] kv.1.data) = [] := by
      rw [List.filter_eq_nil_iff]
      intro kv hkv
      simp [h2 kv hkv]
    simp [getVariables, hnil]
  · simp [variablesField, h3]

/-- Witness for C9 at concrete inputs: the spec's example scope, an
all-underscored scope, and the default (variables-disabled) builder. -/
theorem variables_rendering_witness :
    getVariables ⟨scW, [], [("_hidden", "1"), ("x", "2"), ("y", "'s'")]⟩ =
      "x = 2" ++ linesep ++ "y = 's'" ∧
    getVariables ⟨scW, [], [("_a", "1"), ("_b", "2")]⟩ = "No variables found" ∧
    variablesField defaultPromptBuilder ⟨scW, [], [("x", "2")]⟩ = "—" :=
  variables_rendering scW [] ⟨scW, [], [("_a", "1"), ("_b", "2")]⟩
    defaultPromptBuilder ⟨scW, [], [("x", "2")]⟩ (by decide) rfl

/-- The empty-step scenario used to refute C4 as stated. -/
def srEmptySteps : ScenarioResult := ⟨scW, [], []⟩

/-- Counterexample to C4 as stated: for a scenario result with an empty
step list, prompt construction does not produce an output at all — it
fails with the assertion contract error (there is no step carrying
exception info). -/
theorem empty_steps_counterexample :
    defaultPromptBuilder.build srEmptySteps pdW envW =
      Except.error BuildError.assertionError := rfl

/-- C4 (amended): the STEPS formatting sub-procedure absorbs an empty
step list, producing the empty string rather than failing; but whole
prompt construction for such a scenario result still fails with the
missing-error assertion, since an empty step list carries no exception
info. -/
theorem empty_steps_formatting (b : PromptBuilder) (sr : ScenarioResult)
    (pd : PyPath) (env : SysEnv) (h : sr.stepResults = []) :
    getScenarioSteps sr = "" ∧
    b.build sr pd env = Except.error BuildError.assertionError := by
  constructor
  · simp [getScenarioSteps, h, strIntercalate]
  · have h0 : getError sr = none := by
      rw [getError, h]
      rfl
    simp [PromptBuilder.build, h0]

/-- Witness for C4's amended statement at the concrete empty-step
scenario result. -/
theorem empty_steps_formatting_witness :
    getScenarioSteps srEmptySteps = "" ∧
    defaultPromptBuilder.build srEmptySteps pdW envW =
      Except.error BuildError.assertionError :=
  empty_steps_formatting defaultPromptBuilder srEmptySteps pdW envW rfl

/-! Helper lemmas for trailing-whitespace stripping. -/

theorem dropWhile_dropWhile_eq (p : Char → Bool) (l : List Char) :
    (l.dropWhile p).dropWhile p = l.dropWhile p := by
  induction l with
  | nil => rfl
  | cons c rest ih =>
    by_cases h : p c
    · simpa [List.dropWhile_cons, h] using ih
    · simp [List.dropWhile_cons, h]

theorem pyRstrip_idem (s : String) : pyRstrip (pyRstrip s) = pyRstrip s := by
  show String.mk (((s.data.reverse.dropWhile isPyWs).reverse.reverse.dropWhile isPyWs).reverse) =
    String.mk ((s.data.reverse.dropWhile isPyWs).reverse)
  rw [List.reverse_reverse, dropWhile_dropWhile_eq]

/-- C7: traceback rendering first filters out vedro-internal frames and
then renders at most `tb_limit` frames: when the filtered frame count
exceeds a non-negative `tb_limit`, exactly `tb_limit` frames are
rendered; the rendered output is the cleaned join of exactly those
frame texts, trimmed of trailing whitespace. -/
theorem traceback_truncation (b : PromptBuilder) (exc : ExcInfo) (pd : PyPath)
    (hl : 0 ≤ b.tbLimit)
    (hcount : b.tbLimit.toNat < (filterTb exc.traceback).length) :
    (formatTbFrames (filterTb exc.traceback) b.tbLimit).length = b.tbLimit.toNat ∧
    getErrorTb b exc pd =
      pyRstrip (strJoin ((formatTbFrames (filterTb exc.traceback) b.tbLimit).map
        (fun line => cleanupLine line pd))) ∧
    pyRstrip (getErrorTb b exc pd) = getErrorTb b exc pd := by
  refine ⟨?_, rfl, ?_⟩
  · simp only [formatTbFrames, if_pos hl, List.length_map, List.length_take]
    omega
  · have heq : getErrorTb b exc pd =
        pyRstrip (strJoin ((formatTbFrames (filterTb exc.traceback) b.tbLimit).map
          (fun line => cleanupLine line pd))) := rfl
    rw [heq, pyRstrip_idem]

/-- Witness for C7: twelve filtered-in frames (plus one vedro-internal
frame that is filtered out) against the default limit of 10. -/
theorem traceback_truncation_witness :
    (formatTbFrames (filterTb (ExcInfo.traceback
        ⟨⟨"ValueError", "boom", false, none, none, none⟩,
          ⟨true, "v\n"⟩ :: List.replicate 12 ⟨false, "f\n"⟩⟩)) defaultPromptBuilder.tbLimit).length =
      defaultPromptBuilder.tbLimit.toNat ∧
    getErrorTb defaultPromptBuilder
      ⟨⟨"ValueError", "boom", false, none, none, none⟩,
        ⟨true, "v\n"⟩ :: List.replicate 12 ⟨false, "f\n"⟩⟩ pdW =
      pyRstrip (strJoin ((formatTbFrames (filterTb (ExcInfo.traceback
          ⟨⟨"ValueError", "boom", false, none, none, none⟩,
            ⟨true, "v\n"⟩ :: List.replicate 12 ⟨false, "f\n"⟩⟩)) defaultPromptBuilder.tbLimit).map
        (fun line => cleanupLine line pdW))) ∧
    pyRstrip (getErrorTb defaultPromptBuilder
        ⟨⟨"ValueError", "boom", false, none, none, none⟩,
          ⟨true, "v\n"⟩ :: List.replicate 12 ⟨false, "f\n"⟩⟩ pdW) =
      getErrorTb defaultPromptBuilder
        ⟨⟨"ValueError", "boom", false, none, none, none⟩,
          ⟨true, "v\n"⟩ :: List.replicate 12 ⟨false, "f\n"⟩⟩ pdW :=
  traceback_truncation defaultPromptBuilder
    ⟨⟨"ValueError", "boom", false, none, none, none⟩,
      ⟨true, "v\n"⟩ :: List.replicate 12 ⟨false, "f\n"⟩⟩ pdW (by decide) (by decide)

/-! Helper lemmas for path-cleanup idempotence. -/

theorem replaceGo_not_prefix (fuel : Nat) :
    ∀ (l q p : List Char), q ≠ [] → '.' ∉ q →
      isPrefixL q l = false → isPrefixL q (replaceGo p ['.'] fuel l) = false := by
  induction fuel with
  | zero =>
    intro l q p hq hdot h
    cases l with
    | nil => simpa [replaceGo] using h
    | cons c rest => simpa [replaceGo] using h
  | succ fuel ih =>
    intro l q p hq hdot h
    cases l with
    | nil => simpa [replaceGo] using h
    | cons c rest =>
      by_cases hm : isPrefixL p (c :: rest) = true
      · simp only [replaceGo, if_pos hm]
        cases q with
        | nil => exact absurd rfl hq
        | cons a as =>
          have ha : a ≠ '.' := fun h' => hdot (h' ▸ List.mem_cons_self a as)
          simp [isPrefixL, ha]
      · simp only [replaceGo, if_neg hm]
        cases q with
        | nil => exact absurd rfl hq
        | cons a as =>
          by_cases hac : a = c
          · subst hac
            have has : isPrefixL as rest = false := by
              simpa [isPrefixL] using h
            cases as with
            | nil => simp [isPrefixL] at has
            | cons b bs =>
              have hrec := ih rest (b :: bs) p (by simp)
                (fun hmem => hdot (List.mem_cons_of_mem a hmem)) has
              simp [isPrefixL, hrec]
          · simp [isPrefixL, hac]

theorem countSub_replaceGo (p : List Char) (hp : p ≠ []) (hdot : '.' ∉ p) :
    ∀ (fuel : Nat) (l : List Char), l.length ≤ fuel →
      countSub p (replaceGo p ['.'] fuel l) = 0 := by
  intro fuel
  induction fuel with
  | zero =>
    intro l hl
    have : l = [] := List.length_eq_zero.mp (Nat.le_zero.mp hl)
    subst this
    rfl
  | succ fuel ih =>
    intro l hl
    cases l with
    | nil => simp [replaceGo, countSub]
    | cons c rest =>
      by_cases hm : isPrefixL p (c :: rest) = true
      · simp only [replaceGo, if_pos hm, List.cons_append, List.nil_append]
        have hp1 : isPrefixL p
            ('.' :: replaceGo p ['.'] fuel (rest.drop (p.length - 1))) = false := by
          cases p with
          | nil => exact absurd rfl hp
          | cons a as =>
            have ha : a ≠ '.' := fun h' => hdot (h' ▸ List.mem_cons_self a as)
            simp [isPrefixL, ha]
        rw [countSub, hp1]
        simp only [Bool.false_eq_true, if_false, Nat.zero_add]
        exact ih _ (by simp [List.length_drop] at *; omega)
      · have hm' : isPrefixL p (c :: rest) = false := by
          simpa using hm
        simp only [replaceGo, if_neg hm]
        have hnp := replaceGo_not_prefix (fuel + 1) (c :: rest) p p hp hdot hm'
        simp only [replaceGo, if_neg hm] at hnp
        rw [countSub, hnp]
        simp only [Bool.false_eq_true, if_false, Nat.zero_add]
        exact ih rest (by simpa using Nat.le_of_succ_le_succ hl)

theorem replaceGo_eq_self (p : List Char) (hp : p ≠ []) :
    ∀ (fuel : Nat) (l : List Char), countSub p l = 0 → replaceGo p ['.'] fuel l = l := by
  intro fuel
  induction fuel with
  | zero =>
    intro l _
    cases l <;> simp [replaceGo]
  | succ fuel ih =>
    intro l h
    cases l with
    | nil => simp [replaceGo]
    | cons c rest =>
      rw [countSub] at h
      cases hpre : isPrefixL p (c :: rest) with
      | true => rw [hpre] at h; simp at h
      | false =>
        rw [hpre] at h
        simp only [Bool.false_eq_true, if_false, Nat.zero_add] at h
        simp [replaceGo, hpre, ih rest h]

theorem pyReplace_dot_idempotent (s pat : String) (hne : pat ≠ "")
    (hdot : '.' ∉ pat.data) :
    pyReplace (pyReplace s pat ".") pat "." = pyReplace s pat "." := by
  cases hd : pat.data with
  | nil =>
    exact absurd (by apply String.ext; simp [hd]) hne
  | cons q qs =>
    have hdot' : '.' ∉ q :: qs := hd ▸ hdot
    have hp : (q :: qs : List Char) ≠ [] := by simp
    have hcount : countSub (q :: qs)
        (replaceGo (q :: qs) ['.'] s.data.length s.data) = 0 :=
      countSub_replaceGo (q :: qs) hp hdot' s.data.length s.data (le_refl _)
    simp only [pyReplace, hd]
    show String.mk (replaceGo (q :: qs) ['.']
        (replaceGo (q :: qs) ['.'] s.data.length s.data).length
        (replaceGo (q :: qs) ['.'] s.data.length s.data)) =
      String.mk (replaceGo (q :: qs) ['.'] s.data.length s.data)
    exact congrArg String.mk (replaceGo_eq_self (q :: qs) hp _ _ hcount)

/-- C3 (amended): path normalization is idempotent whenever the
project-root string is non-empty and does not contain the replacement
character `.` (for root strings containing `.` the substitution can
create new occurrences, see the counterexample); and the very same
substitution is applied to the failure message and to every traceback
line. -/
theorem path_cleanup_idempotent (line : String) (pd : PyPath)
    (exc2 : ExcInfo) (pd2 : PyPath)
    (b3 : PromptBuilder) (exc3 : ExcInfo) (pd3 : PyPath)
    (hne : pathStr pd ≠ "") (hdot : '.' ∉ (pathStr pd).data) :
    cleanupLine (cleanupLine line pd) pd = cleanupLine line pd ∧
    getErrorMessage exc2 pd2 = cleanupLine (formatExceptionMessage exc2.value) pd2 ∧
    getErrorTb b3 exc3 pd3 =
      pyRstrip (strJoin ((formatTbFrames (filterTb exc3.traceback) b3.tbLimit).map
        (fun l => cleanupLine l pd3))) :=
  ⟨pyReplace_dot_idempotent line (pathStr pd) hne hdot, rfl, rfl⟩

/-- The dot-containing project root refuting C3 as universally stated. -/
def pdDot : PyPath := ⟨true, [".a"]⟩

/-- Counterexample to C3 as stated: with project root `/.a` (a legal
absolute path string) and input `//.aa`, one cleanup pass yields `/.a`
and a second pass yields `.`, so the normalization is not idempotent
for every project-root string. -/
theorem path_cleanup_not_idempotent_counterexample :
    cleanupLine (cleanupLine "//.aa" pdDot) pdDot ≠ cleanupLine "//.aa" pdDot := by
  decide

/-- Witness for C3's amended statement at a concrete dot-free root. -/
theorem path_cleanup_idempotent_witness :
    cleanupLine (cleanupLine "at /r/tests/login.py in /r" pdW) pdW =
      cleanupLine "at /r/tests/login.py in /r" pdW ∧
    getErrorMessage excW pdW = cleanupLine (formatExceptionMessage excW.value) pdW ∧
    getErrorTb defaultPromptBuilder excW pdW =
      pyRstrip (strJoin ((formatTbFrames (filterTb excW.traceback)
        defaultPromptBuilder.tbLimit).map (fun l => cleanupLine l pdW))) :=
  path_cleanup_idempotent "at /r/tests/login.py in /r" pdW excW pdW
    defaultPromptBuilder excW pdW (by decide) (by decide)

/-! Helper lemmas for counting header occurrences in the built document. -/

theorem isPrefixL_append_sep (x : Char) :
    ∀ (a p b : List Char), x ∉ p → isPrefixL p (a ++ x :: b) = isPrefixL p a := by
  intro a
  induction a with
  | nil =>
    intro p b hx
    cases p with
    | nil => rfl
    | cons q ps =>
      have hq : q ≠ x := fun h => hx (h ▸ List.mem_cons_self q ps)
      simp [isPrefixL, hq]
  | cons c a' ih =>
    intro p b hx
    cases p with
    | nil => rfl
    | cons q ps =>
      by_cases hqc : q = c
      · subst hqc
        simp [isPrefixL, ih ps b (fun h => hx (List.mem_cons_of_mem q h))]
      · simp [isPrefixL, hqc]

theorem countSub_append_sep (x : Char) (p : List Char) (hp : p ≠ []) (hx : x ∉ p) :
    ∀ (a b : List Char), countSub p (a ++ x :: b) = countSub p a + countSub p b := by
  intro a
  induction a with
  | nil =>
    intro b
    have h0 : isPrefixL p (x :: b) = false := by
      cases p with
      | nil => exact absurd rfl hp
      | cons q ps =>
        have hq : q ≠ x := fun h => hx (h ▸ List.mem_cons_self q ps)
        simp [isPrefixL, hq]
    simp [countSub, h0]
  | cons c a' ih =>
    intro b
    have hpre := isPrefixL_append_sep x (c :: a') p b hx
    rw [List.cons_append] at hpre
    simp only [List.cons_append, countSub, List.append_eq, ih b, hpre]
    omega

theorem countSub_cons_not_mem (q : Char) (p' : List Char) :
    ∀ (a b : List Char), q ∉ a → countSub (q :: p') (a ++ b) = countSub (q :: p') b := by
  intro a
  induction a with
  | nil => intro b _; rfl
  | cons c a' ih =>
    intro b h
    have hqc : q ≠ c := fun he => h (he ▸ List.mem_cons_self c a')
    simp only [List.cons_append, countSub, isPrefixL, if_neg hqc]
    simp [ih b (fun hm => h (List.mem_cons_of_mem c hm))]

theorem countSub_joinNl (p : List Char) (hp : p ≠ []) (hnl : '\n' ∉ p) :
    ∀ segs : List (List Char), countSub p (joinNl segs) = (segs.map (countSub p)).sum := by
  intro segs
  induction segs with
  | nil => simp [joinNl, countSub]
  | cons s rest ih =>
    cases rest with
    | nil => simp [joinNl]
    | cons s2 rest2 =>
      simp only [joinNl, List.map_cons, List.sum_cons]
      rw [countSub_append_sep '\n' p hp hnl s (joinNl (s2 :: rest2)), ih]
      simp [List.map_cons, List.sum_cons]

theorem countSub_nil (p : List Char) : countSub p [] = 0 := rfl

/-- The built document, split at its newlines into the alternating
literal/field segments produced by the template. -/
theorem buildDoc_decomp (b : PromptBuilder) (sr : ScenarioResult) (e : ExcInfo)
    (pd : PyPath) (loc : String) (env : SysEnv) :
    (renderTemplate promptTemplate (promptFields b sr e pd loc env)).data = joinNl [
      "## SYSTEM".data,
      getSystemPrompt.data,
      [],
      "## SCENARIO".data,
      "- **Name:** ".data ++ (getScenarioName sr.scenario).data,
      "- **Location:** ".data ++ loc.data,
      "- **Runtime:** ".data ++ (getRuntime env).data,
      [],
      "## STEPS".data,
      (getScenarioSteps sr).data,
      [],
      "## SOURCE".data,
      "```python".data,
      (getScenarioSource sr.scenario).1.data,
      "```".data,
      [],
      "## FAILURE".data,
      (getErrorMessage e pd).data,
      [],
      "## TRACEBACK".data,
      "```python".data,
      (getErrorTb b e pd).data,
      "```".data,
      [],
      "## VARIABLES".data,
      (variablesField b sr).data] := rfl

/-- Occurrence count of any `'#'`-headed, newline-free pattern in the
built document, once every interpolated field value is known to be free
of that pattern: only the literal template segments contribute. -/
theorem countSub_promptDoc (b : PromptBuilder) (sr : ScenarioResult) (e : ExcInfo)
    (pd : PyPath) (loc : String) (env : SysEnv) (p' : List Char)
    (hnl : '\n' ∉ ('#' :: p'))
    (hf : ∀ kv ∈ promptFields b sr e pd loc env, countSub ('#' :: p') kv.2 = 0) :
    countSub ('#' :: p')
        (renderTemplate promptTemplate (promptFields b sr e pd loc env)).data =
      countSub ('#' :: p') "## SYSTEM".data + countSub ('#' :: p') "## SCENARIO".data +
      countSub ('#' :: p') "## STEPS".data + countSub ('#' :: p') "## SOURCE".data +
      countSub ('#' :: p') "```python".data + countSub ('#' :: p') "```".data +
      countSub ('#' :: p') "## FAILURE".data + countSub ('#' :: p') "```python".data +
      countSub ('#' :: p') "```".data + countSub ('#' :: p') "## TRACEBACK".data +
      countSub ('#' :: p') "## VARIABLES".data := by
  have h1 : countSub ('#' :: p') getSystemPrompt.data = 0 :=
    hf ("system_prompt".data, getSystemPrompt.data) (by simp [promptFields])
  have h2 : countSub ('#' :: p') (getScenarioName sr.scenario).data = 0 :=
    hf ("scenario_name".data, (getScenarioName sr.scenario).data) (by simp [promptFields])
  have h3 : countSub ('#' :: p') loc.data = 0 :=
    hf ("scenario_loc".data, loc.data) (by simp [promptFields])
  have h4 : countSub ('#' :: p') (getRuntime env).data = 0 :=
    hf ("runtime".data, (getRuntime env).data) (by simp [promptFields])
  have h5 : countSub ('#' :: p') (getScenarioSteps sr).data = 0 :=
    hf ("scenario_steps".data, (getScenarioSteps sr).data) (by simp [promptFields])
  have h6 : countSub ('#' :: p') (getScenarioSource sr.scenario).1.data = 0 :=
    hf ("scenario_source".data, (getScenarioSource sr.scenario).1.data) (by simp [promptFields])
  have h7 : countSub ('#' :: p') (getErrorMessage e pd).data = 0 :=
    hf ("error_message".data, (getErrorMessage e pd).data) (by simp [promptFields])
  have h8 : countSub ('#' :: p') (getErrorTb b e pd).data = 0 :=
    hf ("error_tb".data, (getErrorTb b e pd).data) (by simp [promptFields])
  have h9 : countSub ('#' :: p') (variablesField b sr).data = 0 :=
    hf ("variables".data, (variablesField b sr).data) (by simp [promptFields])
  rw [buildDoc_decomp b sr e pd loc env,
    countSub_joinNl ('#' :: p') (by simp) hnl]
  simp only [List.map_cons, List.map_nil, List.sum_cons, List.sum_nil]
  rw [countSub_cons_not_mem '#' p' "- **Name:** ".data
        (getScenarioName sr.scenario).data (by decide),
    countSub_cons_not_mem '#' p' "- **Location:** ".data loc.data (by decide),
    countSub_cons_not_mem '#' p' "- **Runtime:** ".data (getRuntime env).data (by decide)]
  rw [countSub_nil, h1, h2, h3, h4, h5, h6, h7, h8, h9]
  omega


set_option maxHeartbeats 1000000 in
/-- C1 (amended): for a scenario result with a captured error whose
path resolves under the project root, `build` returns a document in
which each of the seven section headers occurs exactly once, and the
document decomposes into the template's newline-joined segments with
the headers in the fixed order, provided no interpolated field value
contains one of the header strings as a substring (without that proviso
the property fails, see the counterexample: a failure message can
inject a duplicate header). -/
theorem build_section_headers (b : PromptBuilder) (sr : ScenarioResult)
    (pd : PyPath) (env : SysEnv) (e : ExcInfo) (rel : PyPath) (loc : String)
    (he : getError sr = some e)
    (hrel : relativeTo sr.scenario.path pd = some rel)
    (hloc : loc = pathStr rel ++ ":" ++ toString (getScenarioSource sr.scenario).2.1)
    (hclean : ∀ kv ∈ promptFields b sr e pd loc env,
      ∀ hdr ∈ (["## SYSTEM", "## SCENARIO", "## STEPS", "## SOURCE",
        "## FAILURE", "## TRACEBACK", "## VARIABLES"] : List String),
        countSub hdr.data kv.2 = 0) :
    b.build sr pd env =
      Except.ok (renderTemplate promptTemplate (promptFields b sr e pd loc env)) ∧
    countSub "## SYSTEM".data
      (renderTemplate promptTemplate (promptFields b sr e pd loc env)).data = 1 ∧
    countSub "## SCENARIO".data
      (renderTemplate promptTemplate (promptFields b sr e pd loc env)).data = 1 ∧
    countSub "## STEPS".data
      (renderTemplate promptTemplate (promptFields b sr e pd loc env)).data = 1 ∧
    countSub "## SOURCE".data
      (renderTemplate promptTemplate (promptFields b sr e pd loc env)).data = 1 ∧
    countSub "## FAILURE".data
      (renderTemplate promptTemplate (promptFields b sr e pd loc env)).data = 1 ∧
    countSub "## TRACEBACK".data
      (renderTemplate promptTemplate (promptFields b sr e pd loc env)).data = 1 ∧
    countSub "## VARIABLES".data
      (renderTemplate promptTemplate (promptFields b sr e pd loc env)).data = 1 ∧
    (renderTemplate promptTemplate (promptFields b sr e pd loc env)).data = joinNl [
      "## SYSTEM".data,
      getSystemPrompt.data,
      [],
      "## SCENARIO".data,
      "- **Name:** ".data ++ (getScenarioName sr.scenario).data,
      "- **Location:** ".data ++ loc.data,
      "- **Runtime:** ".data ++ (getRuntime env).data,
      [],
      "## STEPS".data,
      (getScenarioSteps sr).data,
      [],
      "## SOURCE".data,
      "```python".data,
      (getScenarioSource sr.scenario).1.data,
      "```".data,
      [],
      "## FAILURE".data,
      (getErrorMessage e pd).data,
      [],
      "## TRACEBACK".data,
      "```python".data,
      (getErrorTb b e pd).data,
      "```".data,
      [],
      "## VARIABLES".data,
      (variablesField b sr).data] := by
  subst hloc
  refine ⟨?_, ?_, ?_, ?_, ?_, ?_, ?_, ?_, buildDoc_decomp b sr e pd _ env⟩
  · simp only [PromptBuilder.build, he, hrel]
  · exact (countSub_promptDoc b sr e pd _ env "# SYSTEM".data (by decide)
      (fun kv hkv => hclean kv hkv "## SYSTEM" (by simp))).trans (by decide)
  · exact (countSub_promptDoc b sr e pd _ env "# SCENARIO".data (by decide)
      (fun kv hkv => hclean kv hkv "## SCENARIO" (by simp))).trans (by decide)
  · exact (countSub_promptDoc b sr e pd _ env "# STEPS".data (by decide)
      (fun kv hkv => hclean kv hkv "## STEPS" (by simp))).trans (by decide)
  · exact (countSub_promptDoc b sr e pd _ env "# SOURCE".data (by decide)
      (fun kv hkv => hclean kv hkv "## SOURCE" (by simp))).trans (by decide)
  · exact (countSub_promptDoc b sr e pd _ env "# FAILURE".data (by decide)
      (fun kv hkv => hclean kv hkv "## FAILURE" (by simp))).trans (by decide)
  · exact (countSub_promptDoc b sr e pd _ env "# TRACEBACK".data (by decide)
      (fun kv hkv => hclean kv hkv "## TRACEBACK" (by simp))).trans (by decide)
  · exact (countSub_promptDoc b sr e pd _ env "# VARIABLES".data (by decide)
      (fun kv hkv => hclean kv hkv "## VARIABLES" (by simp))).trans (by decide)

/-- An exception whose message is itself a section-header string. -/
def excHdr : ExcInfo := ⟨⟨"ValueError", "## SYSTEM", false, none, none, none⟩, []⟩

/-- A failed scenario result carrying `excHdr`, located under `pdW`. -/
def srHdr : ScenarioResult :=
  ⟨⟨"name", ⟨true, ["r", "f.py"]⟩, none, none⟩, [⟨"step", "FAILED", 5, some excHdr⟩], []⟩

/-- The document built for `srHdr`. -/
def docHdr : String :=
  match defaultPromptBuilder.build srHdr pdW envW with
  | Except.ok doc => doc
  | Except.error _ => ""

/-- Counterexample to C1 as stated: when the failure message is the
string `## SYSTEM`, the built document contains the `## SYSTEM` header
twice, so not every section header occurs exactly once for every
scenario result with a failed step. -/
theorem build_headers_counterexample :
    defaultPromptBuilder.build srHdr pdW envW = Except.ok docHdr ∧
    countSub "## SYSTEM".data docHdr.data = 2 := ⟨rfl, by decide⟩

/-- A failed scenario result under the project root, with header-free
field values, used to witness C1's amended statement. -/
def srOk : ScenarioResult :=
  ⟨⟨"Login", ⟨true, ["r", "tests", "login.py"]⟩, none, none⟩, [stepFail], []⟩

/-- The relative path `build` computes for `srOk` under `pdW`. -/
def relOk : PyPath := ⟨false, ["tests", "login.py"]⟩

/-- The location string `build` computes for `srOk` under `pdW`. -/
def locOk : String := "tests/login.py:-1"

/-- Witness for C1's amended statement at a concrete failed scenario. -/
theorem build_section_headers_witness :
    defaultPromptBuilder.build srOk pdW envW =
      Except.ok (renderTemplate promptTemplate
        (promptFields defaultPromptBuilder srOk excW pdW locOk envW)) ∧
    countSub "## SYSTEM".data
      (renderTemplate promptTemplate
        (promptFields defaultPromptBuilder srOk excW pdW locOk envW)).data = 1 ∧
    countSub "## SCENARIO".data
      (renderTemplate promptTemplate
        (promptFields defaultPromptBuilder srOk excW pdW locOk envW)).data = 1 ∧
    countSub "## STEPS".data
      (renderTemplate promptTemplate
        (promptFields defaultPromptBuilder srOk excW pdW locOk envW)).data = 1 ∧
    countSub "## SOURCE".data
      (renderTemplate promptTemplate
        (promptFields defaultPromptBuilder srOk excW pdW locOk envW)).data = 1 ∧
    countSub "## FAILURE".data
      (renderTemplate promptTemplate
        (promptFields defaultPromptBuilder srOk excW pdW locOk envW)).data = 1 ∧
    countSub "## TRACEBACK".data
      (renderTemplate promptTemplate
        (promptFields defaultPromptBuilder srOk excW pdW locOk envW)).data = 1 ∧
    countSub "## VARIABLES".data
      (renderTemplate promptTemplate
        (promptFields defaultPromptBuilder srOk excW pdW locOk envW)).data = 1 ∧
    (renderTemplate promptTemplate
        (promptFields defaultPromptBuilder srOk excW pdW locOk envW)).data = joinNl [
      "## SYSTEM".data,
      getSystemPrompt.data,
      [],
      "## SCENARIO".data,
      "- **Name:** ".data ++ (getScenarioName srOk.scenario).data,
      "- **Location:** ".data ++ locOk.data,
      "- **Runtime:** ".data ++ (getRuntime envW).data,
      [],
      "## STEPS".data,
      (getScenarioSteps srOk).data,
      [],
      "## SOURCE".data,
      "```python".data,
      (getScenarioSource srOk.scenario).1.data,
      "```".data,
      [],
      "## FAILURE".data,
      (getErrorMessage excW pdW).data,
      [],
      "## TRACEBACK".data,
      "```python".data,
      (getErrorTb defaultPromptBuilder excW pdW).data,
      "```".data,
      [],
      "## VARIABLES".data,
      (variablesField defaultPromptBuilder srOk).data] :=
  build_section_headers defaultPromptBuilder srOk pdW envW excW relOk locOk
    rfl rfl (by decide) (by decide)
